import Mathlib

/-!
Shallow embedding of the Express + PostgreSQL CRUD service
(repository BuddhadebKoner/CRUD-OPARATIONS-POSTGRESQL).

The embedding models:
- JSON response bodies as an inductive value type;
- the users table as a list of rows, with the UNIQUE(email) constraint and
  the SERIAL id generation modelled at the write operations, as the storage
  engine enforces them;
- the model layer (src/src/models/userModel.js, current revision, lines 4-77);
- the legacy model-layer revision concatenated at lines 78-148 of the same
  file, kept for reference as a separate definition;
- the global error handler (src/unnamed/part_001, errorHandle.js);
- the shared response helper (src/src/controllers/userController.js, lines 4-10);
- the validation middleware (validate, src/src/routes/user.route.js lines 15-38)
  together with the Joi schemas of src/src/validators/userValidator.js;
- startup (index.js startServer, lines 84-93) and table creation
  (src/unnamed/part_002, createUserTable.js).

Time is modelled as a natural-number clock passed to every operation that
executes NOW(). Query execution is logged so that theorems can speak about
which storage statements an operation issues.
-/

namespace Crud

/-- JSON values, used for request and response bodies. -/
inductive Json where
  | null
  | bool (b : Bool)
  | num (n : Int)
  | str (s : String)
  | arr (xs : List Json)
  | obj (fields : List (String × Json))
deriving Repr

/-- Top-level keys of a JSON object (the shape of a response body). -/
def Json.keys : Json → List String
  | .obj fields => fields.map Prod.fst
  | _ => []

/-- Look up a top-level key of a JSON object. -/
def Json.lookup (j : Json) (k : String) : Option Json :=
  match j with
  | .obj fields => (fields.find? (fun p => p.1 == k)).map Prod.snd
  | _ => none

/-- An HTTP response: status code plus JSON body. -/
structure HttpResponse where
  status : Nat
  body : Json
deriving Repr

/-- A row of the users table: id SERIAL PRIMARY KEY, name, email UNIQUE,
created_at, updated_at (timestamps modelled as naturals). -/
structure UserRow where
  id : Nat
  name : String
  email : String
  created_at : Nat
  updated_at : Nat
deriving Repr, DecidableEq

/-- The kinds of storage statements the service issues; logged by each
operation so theorems can state which queries were executed. -/
inductive QueryKind where
  | selectPage        -- SELECT * FROM users ORDER BY created_at DESC LIMIT .. OFFSET ..
  | countAll          -- SELECT COUNT(*) FROM users
  | insertUser        -- INSERT INTO users (name, email) VALUES .. RETURNING *
  | selectById        -- SELECT * FROM users WHERE id = ..
  | updateById        -- UPDATE users SET .. WHERE id = .. RETURNING *
  | deleteById        -- DELETE FROM users WHERE id = .. RETURNING *
  | selectEmailPrecheck -- SELECT id FROM users WHERE email = .. AND id != ..
  | createTable       -- CREATE TABLE IF NOT EXISTS users ..
deriving Repr, DecidableEq

/-- Application-raised error carrying an explicit HTTP status
(utils/AppError.js: class AppError extends Error with statusCode). -/
structure AppError where
  message : String
  statusCode : Nat
deriving Repr, DecidableEq

/-- A failure escaping the resource access layer: either raised by the
storage engine with a PostgreSQL error code, or application-raised. -/
inductive DbError where
  | pg (code : String) (message : String)
  | app (e : AppError)
deriving Repr, DecidableEq

/-- The message PostgreSQL attaches to a unique-constraint violation. -/
def uniqueViolationMsg : String := "duplicate key value violates unique constraint"

/-- Sort key of the listing query: ORDER BY created_at DESC (newest first). -/
def byNewest (a b : UserRow) : Prop := b.created_at ≤ a.created_at

instance : DecidableRel byNewest := fun a b => Nat.decLe b.created_at a.created_at

instance : IsTotal UserRow byNewest :=
  ⟨fun a b => (Nat.le_total b.created_at a.created_at).elim Or.inl Or.inr⟩

instance : IsTrans UserRow byNewest :=
  ⟨fun _ _ _ h1 h2 => Nat.le_trans h2 h1⟩

/-- Rows as the query SELECT * FROM users ORDER BY created_at DESC returns
them: sorted newest first. -/
def orderByCreatedDesc (rows : List UserRow) : List UserRow :=
  rows.insertionSort byNewest

/-- Result of the paginated listing (userModel.js lines 14-20). -/
structure PaginationResult where
  users : List UserRow
  total : Nat
  page : Nat
  limit : Nat
  totalPages : Nat
deriving Repr, DecidableEq

/-- getAllUsersService (userModel.js lines 4-21): offset = (page-1)*limit,
one page of rows ordered by created_at descending, a COUNT(*) read, and
totalPages = Math.ceil(total / limit), which for a positive integer limit
is (total + limit - 1) / limit in integer arithmetic. -/
def getAllUsersService (rows : List UserRow) (page limit : Nat) :
    PaginationResult × List QueryKind :=
  let offset := (page - 1) * limit
  let dataRows := ((orderByCreatedDesc rows).drop offset).take limit
  let total := rows.length
  ({ users := dataRows, total := total, page := page, limit := limit,
     totalPages := (total + limit - 1) / limit },
   [QueryKind.selectPage, QueryKind.countAll])

/-- Next SERIAL value: one more than the largest id ever assigned (modelled
from the ids present in the table). -/
def nextId (rows : List UserRow) : Nat :=
  rows.foldr (fun x m => max x.id m) 0 + 1

/-- createUserService (userModel.js lines 23-30): a single INSERT ..
RETURNING *; the storage engine raises error code 23505 when the email
already exists (UNIQUE constraint), and otherwise generates id and both
timestamps. Returns (result, table after the call, executed queries). -/
def createUserService (now : Nat) (rows : List UserRow) (name email : String) :
    Except DbError UserRow × List UserRow × List QueryKind :=
  if rows.any (fun x => x.email == email) then
    (.error (.pg "23505" uniqueViolationMsg), rows, [QueryKind.insertUser])
  else
    let row : UserRow :=
      { id := nextId rows, name := name, email := email,
        created_at := now, updated_at := now }
    (.ok row, rows ++ [row], [QueryKind.insertUser])

/-- getUserByIdService (userModel.js lines 32-35): SELECT by id, returning
the row when it exists. -/
def getUserByIdService (rows : List UserRow) (id : Nat) :
    Option UserRow × List QueryKind :=
  ((rows.filter (fun x => x.id == id)).head?, [QueryKind.selectById])

/-- The row a successful UPDATE produces: assignments exist only for the
fields actually provided, plus updated_at = NOW() always. -/
def applyUpdate (now : Nat) (name? email? : Option String) (r : UserRow) : UserRow :=
  { r with name := name?.getD r.name, email := email?.getD r.email, updated_at := now }

/-- updateUserService (userModel.js lines 37-72, current revision): builds
the dynamic assignment list from the provided fields, raises AppError 400
before any query when the list is empty, then runs one UPDATE .. WHERE id
RETURNING *. The storage engine raises 23505 when the new email collides
with a different row, and the code raises AppError 404 when no row matched.
No SELECT pre-check is issued. -/
def updateUserService (now : Nat) (rows : List UserRow) (id : Nat)
    (name? email? : Option String) :
    Except DbError UserRow × List UserRow × List QueryKind :=
  if name?.isNone && email?.isNone then
    (.error (.app { message := "No fields to update", statusCode := 400 }), rows, [])
  else
    match rows.filter (fun x => x.id == id) with
    | [] =>
      (.error (.app { message := "User not found", statusCode := 404 }), rows,
       [QueryKind.updateById])
    | r :: _ =>
      match email? with
      | some e =>
        if rows.any (fun x => x.email == e && x.id != id) then
          (.error (.pg "23505" uniqueViolationMsg), rows, [QueryKind.updateById])
        else
          (.ok (applyUpdate now name? (some e) r),
           rows.map (fun x => if x.id == id then applyUpdate now name? (some e) x else x),
           [QueryKind.updateById])
      | none =>
        (.ok (applyUpdate now name? none r),
         rows.map (fun x => if x.id == id then applyUpdate now name? none x else x),
         [QueryKind.updateById])

/-- The superseded earlier revision of updateUserService, concatenated at
lines 99-143 of userModel.js: when an email is provided it first issues
SELECT id FROM users WHERE email = .. AND id != .. and throws a plain
Error on a hit, before running the UPDATE (which does not touch
updated_at). Kept only to document the revision the refactor removed; it
is dead code next to the current export above. -/
def updateUserServiceLegacy (rows : List UserRow) (id : Nat)
    (name? email? : Option String) :
    Except DbError UserRow × List UserRow × List QueryKind :=
  match email? with
  | some e =>
    if rows.any (fun x => x.email == e && x.id != id) then
      (.error (.app { message := "Email already exists", statusCode := 0 }), rows,
       [QueryKind.selectEmailPrecheck])
    else if name?.isNone && email?.isNone then
      (.error (.app { message := "No fields to update", statusCode := 0 }), rows,
       [QueryKind.selectEmailPrecheck])
    else
      match rows.filter (fun x => x.id == id) with
      | [] =>
        (.error (.app { message := "User not found", statusCode := 0 }), rows,
         [QueryKind.selectEmailPrecheck, QueryKind.updateById])
      | r :: _ =>
        (.ok { r with name := name?.getD r.name, email := e },
         rows.map (fun x => if x.id == id then { x with name := name?.getD x.name, email := e } else x),
         [QueryKind.selectEmailPrecheck, QueryKind.updateById])
  | none =>
    if name?.isNone then
      (.error (.app { message := "No fields to update", statusCode := 0 }), rows, [])
    else
      match rows.filter (fun x => x.id == id) with
      | [] =>
        (.error (.app { message := "User not found", statusCode := 0 }), rows,
         [QueryKind.updateById])
      | r :: _ =>
        (.ok { r with name := name?.getD r.name },
         rows.map (fun x => if x.id == id then { x with name := name?.getD x.name } else x),
         [QueryKind.updateById])

/-- deleteUserService (userModel.js lines 74-77): DELETE .. RETURNING *. -/
def deleteUserService (rows : List UserRow) (id : Nat) :
    Option UserRow × List UserRow × List QueryKind :=
  ((rows.filter (fun x => x.id == id)).head?,
   rows.filter (fun x => x.id != id),
   [QueryKind.deleteById])

/-- The failure object the global error handler receives: an optional
explicit statusCode, a message, an optional storage-native code, a name
and a stack trace. -/
structure ErrObj where
  statusCode : Option Nat
  message : String
  code : Option String
  name : String
  stack : String
deriving Repr, DecidableEq

/-- How a DbError surfaces to the error handler: a storage failure carries
its PostgreSQL code and the driver name "error"; an AppError carries its
explicit statusCode. -/
def DbError.toErrObj : DbError → ErrObj
  | .pg code msg =>
    { statusCode := none, message := msg, code := some code, name := "error",
      stack := "stack" }
  | .app e =>
    { statusCode := some e.statusCode, message := e.message, code := none,
      name := "AppError", stack := "stack" }

/-- JavaScript, value-or-default over a possibly absent number:
err.statusCode is falsy when absent or zero. -/
def jsOrNat (x : Option Nat) (d : Nat) : Nat :=
  match x with
  | none => d
  | some v => if v == 0 then d else v

/-- JavaScript, value-or-default over a string: the empty string is falsy. -/
def jsOrStr (x d : String) : String :=
  if x == "" then d else x

/-- The status/message classification of errorHandler
(src/unnamed/part_001, lines 4-22): defaults err.statusCode-or-500 and
err.message-or-fallback, then the if/else chain over code and name. -/
def classifyError (err : ErrObj) : Nat × String :=
  let statusCode := jsOrNat err.statusCode 500
  let message := jsOrStr err.message "Internal Server Error"
  if err.code == some "23505" then
    (409, "Duplicate entry - Resource already exists")
  else if err.code == some "23503" then
    (400, "Invalid reference - Related resource not found")
  else if err.code == some "22P02" then
    (400, "Invalid data format")
  else if err.name == "ValidationError" then
    (400, "Validation Error")
  else if err.name == "UnauthorizedError" then
    (401, "Unauthorized Access")
  else
    (statusCode, message)

/-- errorHandler (src/unnamed/part_001, lines 24-33): classification, then
the response body success/message/data, where data is null in production
and carries error and stack otherwise. -/
def errorHandler (err : ErrObj) (isProduction : Bool) : HttpResponse :=
  { status := (classifyError err).1,
    body := Json.obj
      [("success", Json.bool false),
       ("message", Json.str (classifyError err).2),
       ("data",
        if isProduction then Json.null
        else Json.obj [("error", Json.str err.message), ("stack", Json.str err.stack)])] }

/-- notFoundHandler (src/unnamed/part_001, lines 36-42). -/
def notFoundHandler (originalUrl : String) : HttpResponse :=
  { status := 404,
    body := Json.obj
      [("success", Json.bool false),
       ("message", Json.str ("Route " ++ originalUrl ++ " not found")),
       ("data", Json.null)] }

/-- handleResponse (userController.js lines 4-10): the shared response
helper; success is statusCode >= 200 && statusCode < 300. -/
def handleResponse (statusCode : Nat) (message : String) (data : Json) : HttpResponse :=
  { status := statusCode,
    body := Json.obj
      [("success", Json.bool (decide (200 ≤ statusCode) && decide (statusCode < 300))),
       ("message", Json.str message),
       ("data", data)] }

/-! ### Joi schemas and the validation middleware

userValidator.js declares four object schemas over string and number
fields; validate (user.route.js lines 15-38) runs schema.validate with
abortEarly false (collect every violation) and stripUnknown true (drop
unrecognized keys), answers 400 with the collected messages on failure and
otherwise stores the normalized value in req.validated. Numeric values are
modelled as integers (string-encoded query input is coerced), so the
integer rule of the source schemas is vacuous in the model and carries no
separate message here. -/

/-- Rules of a Joi string field: trim then length bounds and optionally
an email-format check, each rule with its configured message. -/
structure StrRules where
  minLen : Nat
  maxLen : Nat
  email : Bool
  msgBase : String
  msgEmpty : String
  msgMin : String
  msgMax : String
  msgEmail : String
  msgRequired : String
deriving Repr, DecidableEq

/-- Rules of a Joi number field: optional bounds, positivity, and an
optional default applied when the field is absent. -/
structure NumRules where
  min? : Option Int
  max? : Option Int
  positive : Bool
  default? : Option Int
  msgBase : String
  msgMin : String
  msgMax : String
  msgPositive : String
  msgRequired : String
deriving Repr, DecidableEq

/-- A field of an object schema. -/
inductive FieldSchema where
  | fstr (required : Bool) (r : StrRules)
  | fnum (required : Bool) (r : NumRules)
deriving Repr, DecidableEq

/-- An object schema: named fields, a minimum number of present keys
(the .min(1) of the update schema) with its message. -/
structure ObjSchema where
  fields : List (String × FieldSchema)
  minPresent : Nat
  msgObjectMin : String
deriving Repr, DecidableEq

/-- Whitespace for the trim rule. -/
def isWsChar (c : Char) : Bool :=
  c == ' ' || c == '\t' || c == '\n' || c == '\r'

/-- Trim leading and trailing whitespace (the Joi trim transform in
convert mode), computed structurally over the character list. -/
def jsTrim (s : String) : String :=
  String.mk ((((s.toList.dropWhile isWsChar).reverse).dropWhile isWsChar).reverse)

/-- Split a character list on a separator character. -/
def splitOnChar (sep : Char) : List Char → List (List Char)
  | [] => [[]]
  | c :: rest =>
    let r := splitOnChar sep rest
    if c == sep then [] :: r
    else
      match r with
      | h :: t => (c :: h) :: t
      | [] => [[c]]

/-- Abstract model of the Joi email-format rule: one at-sign separating a
nonempty local part from a domain of at least two nonempty dot-separated
labels. -/
def isEmailLike (s : String) : Bool :=
  match splitOnChar '@' s.toList with
  | [lp, dom] =>
    !lp.isEmpty && (splitOnChar '.' dom).all (fun x => !x.isEmpty) &&
      2 ≤ (splitOnChar '.' dom).length
  | _ => false

/-- Parse a digit run into a natural number. -/
def parseDigits : List Char → Nat → Option Nat
  | [], acc => some acc
  | c :: rest, acc =>
    if c.isDigit then parseDigits rest (acc * 10 + (c.toNat - '0'.toNat)) else none

/-- Parse a string-encoded integer (optional leading minus, then digits). -/
def parseIntStr (s : String) : Option Int :=
  match s.toList with
  | [] => none
  | '-' :: rest =>
    if rest.isEmpty then none else (parseDigits rest 0).map (fun n => -(n : Int))
  | cs => (parseDigits cs 0).map (fun n => (n : Int))

/-- Coercion of a JSON value to an integer, as Joi number() with convert
does for string-encoded query and path input. -/
def jsonToInt : Json → Option Int
  | .num n => some n
  | .str s => parseIntStr s
  | _ => none

/-- Validate one field against its rules: the messages of every violated
rule, and the normalized value this field contributes (none when absent
without default or when unusable). -/
def fieldResult (fs : FieldSchema) (v? : Option Json) : List String × Option Json :=
  match fs with
  | .fstr required r =>
    match v? with
    | none => (if required then [r.msgRequired] else [], none)
    | some (.str s0) =>
      let s := jsTrim s0
      if s == "" then ([r.msgEmpty], some (.str s))
      else
        ((if s.length < r.minLen then [r.msgMin] else []) ++
         (if r.maxLen < s.length then [r.msgMax] else []) ++
         (if r.email && !(isEmailLike s) then [r.msgEmail] else []),
         some (.str s))
    | some _ => ([r.msgBase], none)
  | .fnum required r =>
    match v? with
    | none => (if required then [r.msgRequired] else [], r.default?.map Json.num)
    | some v =>
      match jsonToInt v with
      | none => ([r.msgBase], none)
      | some n =>
        ((match r.min? with
          | some m => if n < m then [r.msgMin] else []
          | none => []) ++
         (match r.max? with
          | some m => if m < n then [r.msgMax] else []
          | none => []) ++
         (if r.positive && decide (n ≤ 0) then [r.msgPositive] else []),
         some (.num n))

/-- Look up a key of the (JSON object) request part. -/
def lookupJ (input : List (String × Json)) (k : String) : Option Json :=
  (input.find? (fun p => p.1 == k)).map Prod.snd

/-- Validate every schema field in order, concatenating all violation
messages (abortEarly false) and assembling the normalized value from the
recognized keys only (stripUnknown true). -/
def validateFields (fields : List (String × FieldSchema)) (input : List (String × Json)) :
    List String × List (String × Json) :=
  match fields with
  | [] => ([], [])
  | (k, fs) :: rest =>
    let fr := fieldResult fs (lookupJ input k)
    let vr := validateFields rest input
    (fr.1 ++ vr.1,
     (match fr.2 with
      | some v => [(k, v)]
      | none => []) ++ vr.2)

/-- Full schema validation: field rules, then the object-level minimum-keys
rule. Returns all collected messages and the normalized value. -/
def schemaValidate (s : ObjSchema) (input : List (String × Json)) :
    List String × List (String × Json) :=
  let fv := validateFields s.fields input
  (fv.1 ++ (if fv.2.length < s.minPresent then [s.msgObjectMin] else []), fv.2)

/-- The 400 body the validation middleware sends
(user.route.js lines 24-28): success false, the fixed message, and the
collected error messages. -/
def validationFailureBody (errors : List String) : Json :=
  Json.obj
    [("success", Json.bool false),
     ("message", Json.str "Validation failed"),
     ("errors", Json.arr (errors.map Json.str))]

/-- validate (user.route.js lines 15-38): runs schema.validate with
abortEarly false and stripUnknown true; on any violation answers 400 with
all messages, otherwise yields the normalized value (stored in
req.validated keyed by part name). -/
def validate (s : ObjSchema) (input : List (String × Json)) :
    Except HttpResponse (List (String × Json)) :=
  let r := schemaValidate s input
  if r.1.isEmpty then .ok r.2
  else .error { status := 400, body := validationFailureBody r.1 }

/-- createUserSchema (userValidator.js lines 3-16). -/
def createUserSchema : ObjSchema :=
  { fields :=
      [("name", .fstr true
        { minLen := 2, maxLen := 255, email := false,
          msgBase := "name must be a string",
          msgEmpty := "Name is required",
          msgMin := "Name must be at least 2 characters",
          msgMax := "Name must not exceed 255 characters",
          msgEmail := "",
          msgRequired := "Name is required" }),
       ("email", .fstr true
        { minLen := 0, maxLen := 255, email := true,
          msgBase := "email must be a string",
          msgEmpty := "Email is required",
          msgMin := "",
          msgMax := "Email must not exceed 255 characters",
          msgEmail := "Please provide a valid email address",
          msgRequired := "Email is required" })],
    minPresent := 0,
    msgObjectMin := "" }

/-- updateUserSchema (userValidator.js lines 18-31): both fields optional,
at least one must be provided. -/
def updateUserSchema : ObjSchema :=
  { fields :=
      [("name", .fstr false
        { minLen := 2, maxLen := 255, email := false,
          msgBase := "name must be a string",
          msgEmpty := "Name cannot be empty",
          msgMin := "Name must be at least 2 characters",
          msgMax := "Name must not exceed 255 characters",
          msgEmail := "",
          msgRequired := "" }),
       ("email", .fstr false
        { minLen := 0, maxLen := 255, email := true,
          msgBase := "email must be a string",
          msgEmpty := "Email cannot be empty",
          msgMin := "",
          msgMax := "Email must not exceed 255 characters",
          msgEmail := "Please provide a valid email address",
          msgRequired := "" })],
    minPresent := 1,
    msgObjectMin := "At least one field (name or email) must be provided" }

/-- paginationSchema (userValidator.js lines 33-45). -/
def paginationSchema : ObjSchema :=
  { fields :=
      [("page", .fnum false
        { min? := some 1, max? := none, positive := false, default? := some 1,
          msgBase := "Page must be a number",
          msgMin := "Page must be at least 1",
          msgMax := "",
          msgPositive := "",
          msgRequired := "" }),
       ("limit", .fnum false
        { min? := some 1, max? := some 100, positive := false, default? := some 10,
          msgBase := "Limit must be a number",
          msgMin := "Limit must be at least 1",
          msgMax := "Limit must not exceed 100",
          msgPositive := "",
          msgRequired := "" })],
    minPresent := 0,
    msgObjectMin := "" }

/-- idParamSchema (userValidator.js lines 47-54). -/
def idParamSchema : ObjSchema :=
  { fields :=
      [("id", .fnum true
        { min? := none, max? := none, positive := true, default? := none,
          msgBase := "ID must be a number",
          msgMin := "",
          msgMax := "",
          msgPositive := "ID must be a positive number",
          msgRequired := "ID is required" })],
    minPresent := 0,
    msgObjectMin := "" }

/-- Raw read of a body key as the controller does with req.body: a missing
key or a non-string is JavaScript-falsy here, modelled as the empty
string. -/
def getRawStr (body : List (String × Json)) (k : String) : String :=
  match lookupJ body k with
  | some (.str s) => s
  | _ => ""

/-- The POST /api/v1/users pipeline as wired in user.route.js line 9:
validate(createUserSchema, body) and then the createUser controller of
src/src/controllers/userController.js lines 21-34, which destructures the
raw req.body (not the normalized req.validated value), checks JavaScript
truthiness of name and email, and calls createUserService. -/
def postUsers (now : Nat) (isProduction : Bool) (rows : List UserRow)
    (body : List (String × Json)) : HttpResponse × List UserRow :=
  match validate createUserSchema body with
  | .error resp => (resp, rows)
  | .ok _validated =>
    let name := getRawStr body "name"
    let email := getRawStr body "email"
    if name == "" || email == "" then
      (errorHandler (DbError.toErrObj (.app
        { message := "Name and email are required", statusCode := 400 })) isProduction,
       rows)
    else
      match createUserService now rows name email with
      | (.ok row, rows2, _log) =>
        (handleResponse 201 "User created successfully"
          (Json.obj
            [("id", Json.num row.id), ("name", Json.str row.name),
             ("email", Json.str row.email)]),
         rows2)
      | (.error e, rows2, _log) =>
        (errorHandler (DbError.toErrObj e) isProduction, rows2)

/-! ### Startup -/

/-- Outcome of startup: the server begins accepting requests, or the
process aborts with a failure exit. -/
inductive StartOutcome where
  | ready
  | exited1
deriving Repr, DecidableEq

/-- createUserTable (src/unnamed/part_002, lines 3-18): runs CREATE TABLE
IF NOT EXISTS inside try/catch; the catch block only logs the failure and
does not rethrow, so the function resolves successfully either way.
Returns the (never failing) outcome and the console log. -/
def createUserTable (createQueryFails : Bool) : Except String Unit × List String :=
  if createQueryFails then
    (.ok (), ["Error creating users table"])
  else
    (.ok (), ["Users table created successfully"])

/-- startServer (index.js lines 84-93): awaits createUserTable and the
SELECT current_database() probe inside try/catch; a caught failure exits
the process with code 1, otherwise the server starts listening. -/
def startServer (createQueryFails probeFails : Bool) : StartOutcome :=
  match (createUserTable createQueryFails).1 with
  | .error _ => .exited1
  | .ok _ => if probeFails then .exited1 else .ready

/-! ### Concrete example inputs used by witnesses and counterexamples -/

/-- Shape of the body a middleware rejection carries, observed through the
Except result of the validation middleware. -/
def errorKeys? : Except HttpResponse (List (String × Json)) → Option (List String)
  | .error r => some (Json.keys r.body)
  | .ok _ => none

/-- An unanticipated failure: no explicit status, no storage code, the
generic Error name. -/
def unknownErr : ErrObj :=
  { statusCode := none, message := "connection refused", code := none,
    name := "Error", stack := "st" }

/-- A create body whose name carries surrounding whitespace; the schema
accepts it (the trimmed name is valid). -/
def c7body : List (String × Json) :=
  [("name", Json.str " Alice "), ("email", Json.str "alice@x.com")]

/-- A create body with a too-short name, a missing email and an extra
unrecognized key. -/
def c6input : List (String × Json) := [("name", Json.str "A"), ("extra", Json.num 7)]

/-- A one-row table. -/
def rows1 : List UserRow := [⟨1, "Alice", "a@x.com", 3, 3⟩]

/-- A two-row table with distinct emails. -/
def rows2 : List UserRow := [⟨1, "A", "a@x.com", 0, 0⟩, ⟨2, "B", "b@x.com", 0, 0⟩]

/-- A three-row table with distinct creation times. -/
def rows3 : List UserRow :=
  [⟨1, "A", "a@x.com", 5, 5⟩, ⟨2, "B", "b@x.com", 9, 9⟩, ⟨3, "C", "c@x.com", 7, 7⟩]

/-! ### Helper lemmas about the validation gate -/

/-- Unfolding lookup over a cons cell. -/
theorem lookupJ_cons (p : String × Json) (l : List (String × Json)) (k : String) :
    lookupJ (p :: l) k = if p.1 == k then some p.2 else lookupJ l k := by
  simp only [lookupJ, List.find?]
  cases hpk : p.1 == k <;> simp [hpk]

/-- Dropping keys outside a key set does not change lookups of keys inside
it. -/
theorem lookupJ_filter (keys : List String) (input : List (String × Json)) (k : String)
    (hk : keys.contains k = true) :
    lookupJ (input.filter (fun p => keys.contains p.1)) k = lookupJ input k := by
  induction input with
  | nil => rfl
  | cons p rest ih =>
    by_cases hp : keys.contains p.1
    · rw [List.filter_cons_of_pos (by simpa using hp), lookupJ_cons, lookupJ_cons, ih]
    · have hne : (p.1 == k) = false := by
        cases hq : p.1 == k
        · rfl
        · have hpk : p.1 = k := by simpa using hq
          rw [hpk] at hp
          exact absurd hk hp
      rw [List.filter_cons_of_neg (by simpa using hp), lookupJ_cons, hne, ih]
      simp

/-- Field validation reads the input only through lookups of the schema
keys, so unrecognized keys never influence it. -/
theorem validateFields_filter (fields : List (String × FieldSchema)) (keys : List String)
    (input : List (String × Json))
    (hsub : ∀ k fs, (k, fs) ∈ fields → keys.contains k = true) :
    validateFields fields (input.filter (fun p => keys.contains p.1)) =
      validateFields fields input := by
  induction fields with
  | nil => rfl
  | cons hd tl ih =>
    rcases hd with ⟨k, fs⟩
    simp only [validateFields]
    rw [lookupJ_filter keys input k (hsub k fs (List.mem_cons_self _ _)),
      ih (fun k2 fs2 h2 => hsub k2 fs2 (List.mem_cons_of_mem _ h2))]

/-- Every key of the normalized value is a schema key. -/
theorem validateFields_value_keys (fields : List (String × FieldSchema))
    (input : List (String × Json)) :
    ∀ kv ∈ (validateFields fields input).2, kv.1 ∈ fields.map Prod.fst := by
  induction fields with
  | nil => simp [validateFields]
  | cons hd tl ih =>
    rcases hd with ⟨k, fs⟩
    intro kv hkv
    simp only [validateFields, List.mem_append] at hkv
    rcases hkv with hkv | hkv
    · cases hfr : (fieldResult fs (lookupJ input k)).2 with
      | none => rw [hfr] at hkv; cases hkv
      | some v =>
        rw [hfr] at hkv
        simp at hkv
        subst hkv
        simp
    · simp [List.mem_cons_of_mem, ih kv hkv]

/-- No early abort: every violation message of every schema field reaches
the collected error list. -/
theorem validateFields_errors_complete (fields : List (String × FieldSchema))
    (input : List (String × Json)) (k : String) (fs : FieldSchema)
    (hmem : (k, fs) ∈ fields) :
    ∀ m ∈ (fieldResult fs (lookupJ input k)).1, m ∈ (validateFields fields input).1 := by
  induction fields with
  | nil => cases hmem
  | cons hd tl ih =>
    intro m hm
    rcases List.mem_cons.mp hmem with he | ht
    · subst he
      simp only [validateFields, List.mem_append]
      exact Or.inl hm
    · rcases hd with ⟨k2, fs2⟩
      simp only [validateFields, List.mem_append]
      exact Or.inr (ih ht m hm)

/-! ### Claim theorems -/

/-- Claim C1, amended. Every error response emitted through the error
classifier or the unknown-route handler has exactly the top-level shape
success, message, data, with success false, and data null in the
production posture and an error/stack object otherwise; the Validation
Gate rejection instead has top-level shape success, message, errors. -/
theorem error_envelope_shape (e : ErrObj) (isProd : Bool) (path : String) (es : List String) :
    Json.keys (errorHandler e isProd).body = ["success", "message", "data"] ∧
    Json.lookup (errorHandler e isProd).body "success" = some (Json.bool false) ∧
    Json.lookup (errorHandler e isProd).body "data" =
      some (if isProd then Json.null
            else Json.obj [("error", Json.str e.message), ("stack", Json.str e.stack)]) ∧
    Json.keys (notFoundHandler path).body = ["success", "message", "data"] ∧
    Json.lookup (notFoundHandler path).body "data" = some Json.null ∧
    Json.keys (validationFailureBody es) = ["success", "message", "errors"] :=
  ⟨rfl, rfl, rfl, rfl, rfl, rfl⟩

/-- Claim C1, counterexample to the claim as stated: the Validation Gate
rejection of an empty create body is an error response whose top-level
shape is success, message, errors — not success, message, data. -/
theorem validationFailure_shape_cex :
    errorKeys? (validate createUserSchema []) = some ["success", "message", "errors"] ∧
    (["success", "message", "errors"] : List String) ≠ ["success", "message", "data"] :=
  ⟨rfl, by decide⟩

/-- Claim C2. A duplicate email surfaces from Create and from Update as
the storage engine error 23505 raised by the single write statement, the
classifier maps it to 409 with the fixed duplicate-entry message, and
neither operation ever issues the separate SELECT email pre-check. -/
theorem duplicate_email_constraint_only (now : Nat) (rows : List UserRow)
    (name email : String) (id : Nat) (name? : Option String) (e : String) :
    (rows.any (fun x => x.email == email) = true →
      createUserService now rows name email =
        (.error (.pg "23505" uniqueViolationMsg), rows, [QueryKind.insertUser])) ∧
    (rows.filter (fun x => x.id == id) ≠ [] →
      rows.any (fun x => x.email == e && x.id != id) = true →
      updateUserService now rows id name? (some e) =
        (.error (.pg "23505" uniqueViolationMsg), rows, [QueryKind.updateById])) ∧
    classifyError (DbError.toErrObj (.pg "23505" uniqueViolationMsg)) =
      (409, "Duplicate entry - Resource already exists") ∧
    (∀ em?, QueryKind.selectEmailPrecheck ∉ (createUserService now rows name email).2.2 ∧
      QueryKind.selectEmailPrecheck ∉ (updateUserService now rows id name? em?).2.2) := by
  refine ⟨fun h => by simp [createUserService, h], fun h1 h2 => ?_, by decide, fun em? => ⟨?_, ?_⟩⟩
  · cases hf : rows.filter (fun x => x.id == id) with
    | nil => exact absurd hf h1
    | cons r t => simp [updateUserService, hf, h2]
  · unfold createUserService
    split <;> simp
  · unfold updateUserService
    split
    · simp
    · split
      · simp
      · split
        · split <;> simp
        · simp

/-- Claim C2, witness: with a concrete two-row table, a create reusing an
existing email and an update moving one row onto the email of the other
both fail with the storage 23505 signal from the single write query. -/
theorem duplicate_email_constraint_only_witness :
    (rows2.any (fun x => x.email == "a@x.com") = true) ∧
    (rows2.filter (fun x => x.id == 1) ≠ []) ∧
    (rows2.any (fun x => x.email == "b@x.com" && x.id != 1) = true) ∧
    createUserService 0 rows2 "C" "a@x.com" =
      (.error (.pg "23505" uniqueViolationMsg), rows2, [QueryKind.insertUser]) ∧
    updateUserService 0 rows2 1 none (some "b@x.com") =
      (.error (.pg "23505" uniqueViolationMsg), rows2, [QueryKind.updateById]) :=
  ⟨by decide, by decide, by decide,
   (duplicate_email_constraint_only 0 rows2 "C" "a@x.com" 1 none "b@x.com").1 (by decide),
   (duplicate_email_constraint_only 0 rows2 "C" "a@x.com" 1 none "b@x.com").2.1
     (by decide) (by decide)⟩

/-- Claim C3. For valid page and limit, the listing returns the rows of
the created_at-descending order from offset (page-1)*limit, at most limit
of them, still sorted newest first, with total the row count it read and
totalPages characterized as the ceiling of total divided by limit. -/
theorem getAllUsersService_pagination (rows : List UserRow) (page limit : Nat)
    (_hp : 1 ≤ page) (hl : 1 ≤ limit) (_hl100 : limit ≤ 100) :
    (getAllUsersService rows page limit).1.users =
      ((orderByCreatedDesc rows).drop ((page - 1) * limit)).take limit ∧
    (getAllUsersService rows page limit).1.users.length ≤ limit ∧
    List.Sorted byNewest (getAllUsersService rows page limit).1.users ∧
    (getAllUsersService rows page limit).1.total = rows.length ∧
    (∀ k, (getAllUsersService rows page limit).1.totalPages ≤ k ↔ rows.length ≤ k * limit) := by
  refine ⟨rfl, ?_, ?_, rfl, ?_⟩
  · exact List.length_take_le _ _
  · have hs : List.Sorted byNewest (orderByCreatedDesc rows) :=
      List.sorted_insertionSort byNewest rows
    have hsub : List.Sublist
        (((orderByCreatedDesc rows).drop ((page - 1) * limit)).take limit)
        (orderByCreatedDesc rows) :=
      (List.take_sublist _ _).trans (List.drop_sublist _ _)
    exact List.Pairwise.sublist hsub hs
  · intro k
    show (rows.length + limit - 1) / limit ≤ k ↔ rows.length ≤ k * limit
    have hl0 : 0 < limit := hl
    have key : k + 1 ≤ (rows.length + limit - 1) / limit ↔
        (k + 1) * limit ≤ rows.length + limit - 1 := Nat.le_div_iff_mul_le hl0
    rw [Nat.succ_mul] at key
    constructor
    · intro h
      rcases Nat.lt_or_ge (k * limit) rows.length with h2 | h2
      · have hk := key.mpr (by omega)
        omega
      · exact h2
    · intro h
      rcases Nat.lt_or_ge k ((rows.length + limit - 1) / limit) with h2 | h2
      · have hk := key.mp h2
        omega
      · exact h2

/-- Claim C3, witness: the listing over a concrete three-row table at
page 1, limit 2. -/
theorem getAllUsersService_pagination_witness :
    ((1 : Nat) ≤ 1 ∧ (1 : Nat) ≤ 2 ∧ (2 : Nat) ≤ 100) ∧
    ((getAllUsersService rows3 1 2).1.users =
      ((orderByCreatedDesc rows3).drop ((1 - 1) * 2)).take 2 ∧
     (getAllUsersService rows3 1 2).1.users.length ≤ 2 ∧
     List.Sorted byNewest (getAllUsersService rows3 1 2).1.users ∧
     (getAllUsersService rows3 1 2).1.total = rows3.length ∧
     (∀ k, (getAllUsersService rows3 1 2).1.totalPages ≤ k ↔ rows3.length ≤ k * 2)) :=
  ⟨⟨by decide, by decide, by decide⟩,
   getAllUsersService_pagination rows3 1 2 (by decide) (by decide) (by decide)⟩

/-- Claim C4. An update providing neither name nor email fails with the
AppError message No fields to update and status 400, executes no storage
query, and leaves the table unchanged. -/
theorem updateUserService_no_fields (now : Nat) (rows : List UserRow) (id : Nat) :
    updateUserService now rows id none none =
      (.error (.app { message := "No fields to update", statusCode := 400 }), rows, []) := by
  simp [updateUserService]

/-- Claim C5, counterexample to the claim as stated: an unanticipated
failure with a nonempty message is classified as status 500, but the
user-facing message is the failure's own internal text, not Internal
Server Error, regardless of posture. -/
theorem classifyError_unknown_message_cex :
    classifyError unknownErr = (500, "connection refused") ∧
    unknownErr.statusCode = none ∧ unknownErr.code = none ∧
    ("connection refused" : String) ≠ "Internal Server Error" ∧
    Json.lookup (errorHandler unknownErr true).body "message" =
      some (Json.str "connection refused") :=
  ⟨by decide, rfl, rfl, by decide, rfl⟩

/-- Claim C5, amended. A failure with no explicit status, no recognized
storage code and no recognized name is classified as status 500, with the
user-facing message equal to the failure's own message when nonempty and
Internal Server Error only when it is empty; the production posture only
forces the data field to null. -/
theorem classifyError_unknown_default (e : ErrObj)
    (h1 : e.statusCode = none)
    (h2 : e.code ≠ some "23505") (h3 : e.code ≠ some "23503") (h4 : e.code ≠ some "22P02")
    (h5 : e.name ≠ "ValidationError") (h6 : e.name ≠ "UnauthorizedError") :
    classifyError e = (500, jsOrStr e.message "Internal Server Error") ∧
    Json.lookup (errorHandler e true).body "data" = some Json.null := by
  constructor
  · simp [classifyError, jsOrNat, h1, beq_iff_eq, h2, h3, h4, h5, h6]
  · simp [errorHandler, Json.lookup, List.find?]

/-- Claim C5, witness: the amended classification evaluated at the
concrete unanticipated failure. -/
theorem classifyError_unknown_default_witness :
    unknownErr.statusCode = none ∧
    unknownErr.code ≠ some "23505" ∧ unknownErr.code ≠ some "23503" ∧
    unknownErr.code ≠ some "22P02" ∧
    unknownErr.name ≠ "ValidationError" ∧ unknownErr.name ≠ "UnauthorizedError" ∧
    (classifyError unknownErr = (500, jsOrStr unknownErr.message "Internal Server Error") ∧
     Json.lookup (errorHandler unknownErr true).body "data" = some Json.null) :=
  ⟨rfl, by decide, by decide, by decide, by decide, by decide,
   classifyError_unknown_default unknownErr rfl (by decide) (by decide) (by decide)
     (by decide) (by decide)⟩

/-- Claim C6. The gate answers 400 carrying every collected violation
message when any rule is violated; every violation message of every
schema field is collected (no early abort); the normalized value holds
only schema keys; and unrecognized input keys change neither the outcome
nor the normalized value. -/
theorem validate_all_errors_strip_unknown (s : ObjSchema) (input : List (String × Json)) :
    ((schemaValidate s input).1 = [] →
      validate s input = .ok (schemaValidate s input).2) ∧
    ((schemaValidate s input).1 ≠ [] →
      validate s input =
        .error { status := 400, body := validationFailureBody (schemaValidate s input).1 }) ∧
    (∀ kv ∈ (schemaValidate s input).2, kv.1 ∈ s.fields.map Prod.fst) ∧
    (∀ k fs, (k, fs) ∈ s.fields →
      ∀ m ∈ (fieldResult fs (lookupJ input k)).1, m ∈ (schemaValidate s input).1) ∧
    (schemaValidate s (input.filter (fun p => (s.fields.map Prod.fst).contains p.1)) =
      schemaValidate s input) := by
  refine ⟨?_, ?_, ?_, ?_, ?_⟩
  · intro h
    simp [validate, h]
  · intro h
    simp [validate, h, List.isEmpty_iff]
  · intro kv hkv
    exact validateFields_value_keys s.fields input kv hkv
  · intro k fs hmem m hm
    simp only [schemaValidate, List.mem_append]
    exact Or.inl (validateFields_errors_complete s.fields input k fs hmem m hm)
  · simp only [schemaValidate]
    rw [validateFields_filter s.fields (s.fields.map Prod.fst) input]
    intro k fs hmem
    have : k ∈ s.fields.map Prod.fst := List.mem_map.mpr ⟨(k, fs), hmem, rfl⟩
    simpa using this

/-- Claim C6, witness: a create body with a too-short name, a missing
email and an extra key is rejected with status 400 and the collected
message list. -/
theorem validate_all_errors_strip_unknown_witness :
    (schemaValidate createUserSchema c6input).1 ≠ [] ∧
    validate createUserSchema c6input =
      .error { status := 400,
               body := validationFailureBody (schemaValidate createUserSchema c6input).1 } :=
  ⟨by decide, (validate_all_errors_strip_unknown createUserSchema c6input).2.1 (by decide)⟩

/-- Claim C7, code evaluation at the failing input: the gate normalizes
the body (trims the name), but the createUser controller reads the raw
req.body and stores the untrimmed name, so the stored row differs from
the gate's normalized value. -/
theorem createUser_ignores_normalized_body :
    validate createUserSchema c7body =
      .ok [("name", Json.str "Alice"), ("email", Json.str "alice@x.com")] ∧
    (postUsers 5 true [] c7body).1.status = 201 ∧
    (postUsers 5 true [] c7body).2 =
      [{ id := 1, name := " Alice ", email := "alice@x.com", created_at := 5, updated_at := 5 }] ∧
    (" Alice " : String) ≠ "Alice" :=
  ⟨rfl, rfl, rfl, by decide⟩

/-- Claim C8. An update of an existing row that provides only a name
leaves the email of that row (and of every row) unchanged and sets
updated_at to the current clock, strictly later than its previous
value. -/
theorem updateUserService_name_only (now : Nat) (rows : List UserRow) (id : Nat)
    (r : UserRow) (n : String)
    (hrow : rows.filter (fun x => x.id == id) = [r])
    (hclock : r.updated_at < now) :
    (updateUserService now rows id (some n) none).1 =
      .ok { id := r.id, name := n, email := r.email,
            created_at := r.created_at, updated_at := now } ∧
    (updateUserService now rows id (some n) none).2.1 =
      rows.map (fun x => if x.id == id then
        { id := x.id, name := n, email := x.email,
          created_at := x.created_at, updated_at := now } else x) ∧
    r.updated_at < now := by
  refine ⟨?_, ?_, hclock⟩ <;> simp [updateUserService, hrow, applyUpdate]

/-- Claim C8, witness: updating only the name of the single stored row at
a later clock keeps its email and advances updated_at. -/
theorem updateUserService_name_only_witness :
    (rows1.filter (fun x => x.id == 1) = [⟨1, "Alice", "a@x.com", 3, 3⟩]) ∧ 3 < 9 ∧
    ((updateUserService 9 rows1 1 (some "Alicia") none).1 =
      .ok { id := 1, name := "Alicia", email := "a@x.com", created_at := 3, updated_at := 9 } ∧
     (updateUserService 9 rows1 1 (some "Alicia") none).2.1 =
      rows1.map (fun x => if x.id == 1 then
        { id := x.id, name := "Alicia", email := x.email,
          created_at := x.created_at, updated_at := 9 } else x) ∧
     (3 : Nat) < 9) :=
  ⟨by decide, by decide,
   updateUserService_name_only 9 rows1 1 ⟨1, "Alice", "a@x.com", 3, 3⟩ "Alicia"
     (by decide) (by decide)⟩

/-- Claim C9, code evaluation at the failing input: when the table-ensure
query fails, createUserTable swallows the error (its catch only logs), so
startServer still reaches the listening state; only the connectivity
probe failure aborts startup. -/
theorem startServer_ready_despite_table_failure :
    startServer true false = StartOutcome.ready ∧
    (createUserTable true).2 = ["Error creating users table"] ∧
    startServer false true = StartOutcome.exited1 ∧
    startServer false false = StartOutcome.ready :=
  ⟨rfl, rfl, rfl, rfl⟩

/-- Claim C10. A response built by the shared helper carries success true
exactly when its status code lies in 200..299. -/
theorem handleResponse_success_iff (s : Nat) (msg : String) (data : Json) :
    Json.lookup (handleResponse s msg data).body "success" = some (Json.bool true) ↔
      200 ≤ s ∧ s ≤ 299 := by
  simp [handleResponse, Json.lookup, List.find?]
  omega

end Crud
